import Mathlib

/-!
Verification of the serde dispatch engine and schema-registry client of the
console backend.  The Go sources are embedded shallowly: byte slices become
`Option (List Nat)` (a `none` slice is Go's nil slice, distinct from an empty
one), errors become `Option String` / `Except`, and the individual codec
bodies — which are not part of the analysed sources — are abstract functions
supplied as parameters.
-/

namespace Console

/-- A dynamically typed parsed value (the `interface{}` result a codec
produces). The exact shape is irrelevant to the dispatch engine, which never
inspects it. -/
inductive DynamicValue where
  | nullV
  | boolV (b : Bool)
  | intV (n : Int)
  | strV (s : String)
  | bytesV (bs : List Nat)
  | arrV (xs : List DynamicValue)
  | mapV (kvs : List (String × DynamicValue))

/-- `TroubleshootingReport` from the serde package: codec name plus the
failure message of its attempt. -/
structure TroubleshootingReport where
  SerdeName : String
  Message : String
deriving DecidableEq

/-- `RecordPayload`: the decode result for one side (key or value) of a
record.  `Troubleshooting = none` models a nil Go slice. -/
structure RecordPayload where
  OriginalPayload : Option (List Nat) := none
  PayloadSizeBytes : Nat := 0
  IsPayloadNull : Bool := false
  IsPayloadTooLarge : Bool := false
  NormalizedPayload : Option (List Nat) := none
  Encoding : String := ""
  SchemaID : Option Nat := none
  ParsedPayload : Option DynamicValue := none
  Troubleshooting : Option (List TroubleshootingReport) := none

/-- The relevant fields of a `kgo.Record`. -/
structure KgoRecord where
  Key : Option (List Nat) := none
  Value : Option (List Nat) := none
  Topic : String := ""
  Headers : List (String × List Nat) := []

/-- `PayloadType` selects the key or the value side of a record. -/
inductive PayloadType where
  | key
  | value
deriving DecidableEq

/-- Serialization options (`SerdeOpt`); the dispatch engine only ever appends
a topic option. -/
inductive SerdeOption where
  | withTopic (t : String)
deriving DecidableEq

/-- A registered codec (the `Serde` interface): a name, a fallible decode
attempt returning a payload pointer and an error, and a fallible encode. -/
structure Serde where
  name : String
  deserializePayload : KgoRecord → PayloadType → Option RecordPayload × Option String
  serializeObject : DynamicValue → PayloadType → List SerdeOption → Except String (List Nat)

/-- The result of one full record deserialization (`Record` in the source). -/
structure DeserializedRecord where
  Key : RecordPayload
  Value : RecordPayload
  Headers : List (String × List Nat)

/-- `DeserializationOptions` of the serde service.  Encodings are the string
payload-encoding names. -/
structure DeserializationOptions where
  KeyEncoding : String := ""
  ValueEncoding : String := ""
  MaxPayloadSize : Int := 0
  Troubleshoot : Bool := false
  IncludeRawData : Bool := false

/-- The serde `Service`: the ordered codec chain plus the dedicated
consumer-offsets decoder (whose body is outside the analysed sources and is
therefore abstract; it receives no options). -/
structure Service where
  SerDes : List Serde
  deserializeConsumerOffset : KgoRecord → Option DeserializedRecord

/-- `payloadFromRecord` selects value bytes for the value side, key bytes
otherwise. -/
def payloadFromRecord (record : KgoRecord) (pt : PayloadType) : Option (List Nat) :=
  match pt with
  | .value => record.Value
  | .key => record.Key

/-- Go `len` of a possibly-nil byte slice. -/
def payloadLen : Option (List Nat) → Nat
  | none => 0
  | some l => l.length

/-- The payload-encoding label of the `NoneSerde`. -/
def PayloadEncodingNone : String := "none"

/-- The payload-encoding label used for the fallback binary classification. -/
def PayloadEncodingBinary : String := "binary"

/-- `defaultMaxPayloadSize` (1 MB) from the serde service. -/
def defaultMaxPayloadSize : Int := 1000000

/-- The outcome of running the codec chain loop of `deserializePayload`:
`rp`/`err` are the last values assigned by an attempt (the loop breaks on the
first nil error), `reports` the accumulated troubleshooting entries and
`invoked` the names of the codecs whose decode attempt was actually called. -/
structure ChainOutcome where
  rp : Option RecordPayload
  err : Option String
  reports : List TroubleshootingReport
  invoked : List String

/-- The `for _, serde := range s.SerDes` loop of `deserializePayload`:
invoke each codec in order; break on the first nil error; otherwise append a
troubleshooting entry and continue.  `rp0`/`err0` carry the values of the
loop variables from previous iterations. -/
def runSerdes (record : KgoRecord) (pt : PayloadType) :
    List Serde → Option RecordPayload → Option String → ChainOutcome
  | [], rp0, err0 => ⟨rp0, err0, [], []⟩
  | serde :: rest, _, _ =>
    let att := serde.deserializePayload record pt
    match att.2 with
    | none => ⟨att.1, none, [], [serde.name]⟩
    | some e =>
      let out := runSerdes record pt rest att.1 (some e)
      ⟨out.rp, out.err, ⟨serde.name, e⟩ :: out.reports, serde.name :: out.invoked⟩

/-- `Service.deserializePayload`: the per-payload dispatch procedure. -/
def Service.deserializePayload (s : Service) (record : KgoRecord) (pt : PayloadType)
    (opts : DeserializationOptions) : RecordPayload :=
  let payload := payloadFromRecord record pt
  let originalPayload : Option (List Nat) := if opts.IncludeRawData then payload else none
  if payloadLen payload = 0 then
    { OriginalPayload := originalPayload
      IsPayloadNull := payload.isNone
      PayloadSizeBytes := 0
      Encoding := PayloadEncodingNone }
  else
    let out := runSerdes record pt s.SerDes none none
    -- `rp == nil || err != nil || (rp != nil && rp.Encoding == "")` forces the
    -- binary classification and unconditionally attaches troubleshooting.
    let picked : RecordPayload × Bool :=
      match out.rp, out.err with
      | some rp, none =>
        if rp.Encoding = "" then ({ Encoding := PayloadEncodingBinary }, true)
        else (rp, opts.Troubleshoot)
      | _, _ => ({ Encoding := PayloadEncodingBinary }, true)
    let rp1 : RecordPayload :=
      { picked.1 with PayloadSizeBytes := payloadLen payload, IsPayloadNull := payload.isNone }
    let rp2 : RecordPayload :=
      if opts.IncludeRawData then { rp1 with OriginalPayload := payload } else rp1
    let rp3 : RecordPayload :=
      if (payloadLen payload : Int) > opts.MaxPayloadSize then
        { rp2 with IsPayloadTooLarge := true, NormalizedPayload := none }
      else rp2
    if picked.2 then { rp3 with Troubleshooting := some out.reports } else rp3

/-- Modelled from the spec: `recordHeaders` is not part of the provided
sources; per the spec, headers are copied through as an ordered sequence of
(name, bytes) pairs unmodified. -/
def recordHeaders (record : KgoRecord) : List (String × List Nat) :=
  record.Headers

/-- `Service.DeserializeRecord`: applies the max-payload-size default, tries
the consumer-offsets decoder for the internal topic, then decodes key and
value independently. -/
def Service.DeserializeRecord (s : Service) (record : KgoRecord)
    (opts : DeserializationOptions) : DeserializedRecord :=
  let opts := if opts.MaxPayloadSize ≤ 0 then
    { opts with MaxPayloadSize := defaultMaxPayloadSize } else opts
  let viaOffsets : Option DeserializedRecord :=
    if record.Topic = "__consumer_offsets" then s.deserializeConsumerOffset record else none
  match viaOffsets with
  | some rec => rec
  | none =>
    { Key := s.deserializePayload record .key opts
      Value := s.deserializePayload record .value opts
      Headers := recordHeaders record }

/-! ### The fixed codec chain of `NewService` -/

/-- The kinds of codec registered by `NewService`, in the roles the spec
names them by: `protobufSchemaSerde` is the registry-framed ("with schema")
protobuf codec, `protobufSerde` the one without a schema registry. -/
inductive SerdeKind where
  | noneSerde
  | jsonSerde
  | jsonSchemaSerde
  | xmlSerde
  | avroSerde
  | protobufSerde
  | protobufSchemaSerde
  | msgPackSerde
  | smileSerde
  | utf8Serde
  | textSerde
  | uintSerde
deriving DecidableEq

/-- The codec chain exactly as `NewService` constructs it, in source order. -/
def newServiceSerdeOrder : List SerdeKind :=
  [.noneSerde, .jsonSerde, .jsonSchemaSerde, .xmlSerde, .avroSerde,
   .protobufSerde, .protobufSchemaSerde, .msgPackSerde, .smileSerde,
   .utf8Serde, .textSerde, .uintSerde]

/-- The chain order as the spec lists it: none/empty-check, JSON,
JSON-with-schema, XML, Avro-with-schema, Protobuf-with-schema,
Protobuf-without-schema, MessagePack, Smile, UTF-8 text, plain text,
unsigned-integer.  Stated from the spec's words, to be compared with
`newServiceSerdeOrder`. -/
def specSerdeOrder : List SerdeKind :=
  [.noneSerde, .jsonSerde, .jsonSchemaSerde, .xmlSerde, .avroSerde,
   .protobufSchemaSerde, .protobufSerde, .msgPackSerde, .smileSerde,
   .utf8Serde, .textSerde, .uintSerde]

/-- `NewService`, with the codec bodies (which live outside the analysed
sources) supplied as a function from kind to implementation. -/
def NewService (impl : SerdeKind → Serde)
    (offsets : KgoRecord → Option DeserializedRecord) : Service :=
  { SerDes := newServiceSerdeOrder.map impl
    deserializeConsumerOffset := offsets }

/-! ### The serialize path -/

/-- Input for one side of `SerializeRecord`. -/
structure RecordPayloadInput where
  Encoding : String := ""
  Payload : DynamicValue := .nullV
  Options : List SerdeOption := []

/-- `SerializeInput`. -/
structure SerializeInput where
  Topic : String := ""
  Key : RecordPayloadInput := {}
  Value : RecordPayloadInput := {}

/-- `RecordPayloadSerializeResult`. -/
structure RecordPayloadSerializeResult where
  Encoding : String := ""
  Payload : Option (List Nat) := none
  Troubleshooting : List TroubleshootingReport := []

/-- `SerializeOutput`; the sides are pointers in the source, hence
optional. -/
structure SerializeOutput where
  Key : Option RecordPayloadSerializeResult := none
  Value : Option RecordPayloadSerializeResult := none

/-- Outcome of the name-matching serialize loop for one side: the fields of
the side's `RecordPayloadSerializeResult` together with the loop's `err` and
`found` variables. -/
structure SideOutcome where
  encoding : String := ""
  payload : Option (List Nat) := none
  reports : List TroubleshootingReport := []
  err : Option String := none
  found : Bool := false

/-- The `for _, serde := range s.SerDes` loop of `SerializeRecord` for one
side: codecs whose name differs from the requested encoding are skipped; a
matching codec is invoked; on success the loop breaks with a nil error, on
failure it records a troubleshooting entry and continues.  `err0`/`found0`
carry the loop variables from previous iterations. -/
def serializeLoop (inp : RecordPayloadInput) (pt : PayloadType) (opts : List SerdeOption) :
    List Serde → Option String → Bool → SideOutcome
  | [], err0, found0 => { err := err0, found := found0 }
  | serde :: rest, err0, found0 =>
    if inp.Encoding = serde.name then
      match serde.serializeObject inp.Payload pt opts with
      | .ok bytes =>
        { encoding := serde.name, payload := some bytes, err := none, found := true }
      | .error e =>
        let out := serializeLoop inp pt opts rest (some e) true
        { out with reports := ⟨serde.name, e⟩ :: out.reports }
    else
      serializeLoop inp pt opts rest err0 found0

/-- The per-call options for one side: a topic option is appended whenever
the input carries a topic. -/
def sideOptions (topic : String) (inp : RecordPayloadInput) : List SerdeOption :=
  if topic = "" then inp.Options else inp.Options ++ [SerdeOption.withTopic topic]

/-- The serialize loop outcome of the key side. -/
def keySideOutcome (s : Service) (input : SerializeInput) : SideOutcome :=
  serializeLoop input.Key PayloadType.key (sideOptions input.Topic input.Key)
    s.SerDes none false

/-- The serialize loop outcome of the value side. -/
def valueSideOutcome (s : Service) (input : SerializeInput) : SideOutcome :=
  serializeLoop input.Value PayloadType.value (sideOptions input.Topic input.Value)
    s.SerDes none false

/-- The partial result stored for one side after its loop. -/
def sideResult (o : SideOutcome) : RecordPayloadSerializeResult :=
  { Encoding := o.encoding, Payload := o.payload, Troubleshooting := o.reports }

/-- The error state of one side after its loop: `err` if some codec name
matched, the invalid-encoding error otherwise. -/
def sideErr (o : SideOutcome) (side : String) (requested : String) : Option String :=
  if o.found then o.err else some ("invalid encoding for " ++ side ++ ": " ++ requested)

/-- `Service.SerializeRecord`: serializes the key side first and returns
early with the key-side error when it fails; only then is the value side
attempted. -/
def Service.SerializeRecord (s : Service) (input : SerializeInput) :
    SerializeOutput × Option String :=
  let kout := keySideOutcome s input
  let kres := sideResult kout
  let kerr := sideErr kout "key" input.Key.Encoding
  match kerr with
  | some e => ({ Key := some kres, Value := none }, some e)
  | none =>
    let vout := valueSideOutcome s input
    let vres := sideResult vout
    let verr := sideErr vout "value" input.Value.Encoding
    ({ Key := some kres, Value := some vres }, verr)

/-! ### The Avro framed codec (`AvroSerde.DeserializePayload`) -/

/-- The payload-encoding label the Avro codec reports. -/
def payloadEncodingAvro : String := "avro"

/-- The schema service attached to the Avro codec, abstracted to the one call
the codec makes: resolving a schema id to a parsed Avro schema (modelled as
the schema text). -/
structure AvroSchemaSvc where
  getAvroSchemaByID : Nat → Except String String

/-- Big-endian unsigned 32-bit integer from four payload bytes. -/
def bigEndianUint32 (b1 b2 b3 b4 : Nat) : Nat :=
  ((b1 * 256 + b2) * 256 + b3) * 256 + b4

/-- The raw bytes of one record side, as the Go code indexes them (a nil
slice behaves as an empty one under `len` and indexing). -/
def payloadBytes (record : KgoRecord) (pt : PayloadType) : List Nat :=
  (payloadFromRecord record pt).getD []

/-- `AvroSerde.DeserializePayload`, instrumented with the list of schema ids
requested from the registry (second component), so that "no registry call is
made" is expressible.  `svc = none` models a nil `SchemaService`;
`unmarshal` is the external `avro.Unmarshal` decoding the body against the
resolved schema. -/
def avroDeserializePayload (svc : Option AvroSchemaSvc)
    (unmarshal : String → List Nat → Except String DynamicValue)
    (record : KgoRecord) (pt : PayloadType) :
    Except String RecordPayload × List Nat :=
  match svc with
  | none => (.error "no schema registry configured", [])
  | some svc =>
    let payload := payloadBytes record pt
    if payload.length ≤ 5 then
      (.error "payload length is < 5", [])
    else if payload.headI ≠ 0 then
      (.error "incorrect magic byte", [])
    else
      let schemaID := bigEndianUint32 (payload.getD 1 0) (payload.getD 2 0)
        (payload.getD 3 0) (payload.getD 4 0)
      match svc.getAvroSchemaByID schemaID with
      | .error e => (.error ("getting avro schema from registry: " ++ e), [schemaID])
      | .ok schema =>
        match unmarshal schema (payload.drop 5) with
        | .error e => (.error ("decoding avro: " ++ e), [schemaID])
        | .ok obj =>
          (.ok { ParsedPayload := some obj, Encoding := payloadEncodingAvro }, [schemaID])

/-! ### The schema registry REST client -/

/-- `RestError`: the structured error body the registry returns. -/
structure RestError where
  ErrorCode : Int
  Message : String
deriving DecidableEq

/-- What one REST call yields, as the resty client presents it to the
calling code: either a transport-level error from executing the request, or
a response with a status code, the error body (parsed into `RestError` only
for error statuses with a recognizable body) and the success body (parsed
only for 2xx statuses).  `res.Result()` always yields the target object the
call registered, holding the parsed success body or its zero value. -/
inductive RestyOutcome (α : Type) where
  | transportError (msg : String)
  | response (status : Nat) (errorBody : Option RestError) (successBody : Option α)

/-- The errors a client call can surface: a wrapped transport error, the
structured registry error, a generic status-code error, or a wrap of an
inner error. -/
inductive ClientError where
  | transport (msg : String)
  | rest (e : RestError)
  | statusCode (msg : String) (code : Nat)
  | wrap (msg : String) (e : ClientError)
deriving DecidableEq

/-- `res.IsError()`: status code 400 or above. -/
def isErrorStatus (status : Nat) : Bool :=
  400 ≤ status

/-- `SchemaResponse` of `GET /schemas/ids/{id}`. -/
structure SchemaResponse where
  Schema : String := ""
  References : List (String × String × Int) := []
deriving DecidableEq

/-- `SchemaVersionedResponse` of the versioned schema endpoints. -/
structure SchemaVersionedResponse where
  Subject : String := ""
  SchemaID : Int := 0
  Version : Int := 0
  Schema : String := ""
  -- the Go field is named `Type`, a keyword here
  SchemaType : String := ""
  References : List (String × String × Int) := []
deriving DecidableEq

/-- `Client.GetSchemaByID`: transport errors are wrapped; error statuses
yield the parsed registry error when available, a generic status error
otherwise. -/
def GetSchemaByID (resp : RestyOutcome SchemaResponse) : Except ClientError SchemaResponse :=
  match resp with
  | .transportError m => .error (.transport ("get schema by id request failed: " ++ m))
  | .response status errorBody successBody =>
    if isErrorStatus status then
      match errorBody with
      | some re => .error (.rest re)
      | none => .error (.statusCode "get schema by id request failed" status)
    else
      .ok (successBody.getD {})

/-- `Client.GetSubjects`.  Note: the source performs no `res.IsError()`
check on this endpoint; it directly type-asserts `res.Result()`, which
always succeeds and holds the zero value (an empty list) whenever the
response was not a parsed success. -/
def GetSubjects (resp : RestyOutcome (List String)) : Except ClientError (List String) :=
  match resp with
  | .transportError m => .error (.transport ("get subjects request failed: " ++ m))
  | .response _ _ successBody =>
    .ok (successBody.getD [])

/-- `Client.GetSchemaBySubject` (for a fixed version/deleted-flag request,
absorbed into the abstract response): error statuses yield the structured or
generic error; on success an absent `schemaType` is normalized to AVRO. -/
def GetSchemaBySubject (resp : RestyOutcome SchemaVersionedResponse) :
    Except ClientError SchemaVersionedResponse :=
  match resp with
  | .transportError m => .error (.transport ("get schema by subject request failed: " ++ m))
  | .response status errorBody successBody =>
    if isErrorStatus status then
      match errorBody with
      | some re => .error (.rest re)
      | none => .error (.statusCode "get schema by subject request failed" status)
    else
      let parsed := successBody.getD {}
      .ok (if parsed.SchemaType = "" then { parsed with SchemaType := "AVRO" } else parsed)

/-- The registry as one bulk-listing call scenario sees it: the response of
`GET /schemas`, the response of `GET /subjects`, and the response of
`GET /subjects/{s}/versions/latest` for every subject `s`. -/
structure SchemaRegistryState where
  schemasResp : RestyOutcome (List SchemaVersionedResponse)
  subjectsResp : RestyOutcome (List String)
  schemaBySubjectResp : String → RestyOutcome SchemaVersionedResponse

/-- The channel-draining loop of `GetSchemasIndividually`, processing the
per-subject fetch results in their arrival order: the first failed fetch
makes the whole operation fail; otherwise all results are collected. -/
def collectSchemas (reg : SchemaRegistryState) :
    List String → Except ClientError (List SchemaVersionedResponse)
  | [] => .ok []
  | s :: rest =>
    match GetSchemaBySubject (reg.schemaBySubjectResp s) with
    | .error e => .error (.wrap "failed to fetch at least one schema" e)
    | .ok r =>
      match collectSchemas reg rest with
      | .error e => .error e
      | .ok rs => .ok (r :: rs)

/-- `Client.GetSchemasIndividually`: list all subjects, then fetch the
latest version of every subject concurrently; `arrival` is the order in
which the per-subject results come in over the completion channel (some
permutation of the subject list). -/
def GetSchemasIndividually (reg : SchemaRegistryState) (arrival : List String) :
    Except ClientError (List SchemaVersionedResponse) :=
  match GetSubjects reg.subjectsResp with
  | .error e => .error (.wrap "failed to get subjects to fetch schemas for" e)
  | .ok _ => collectSchemas reg arrival

/-- `Client.GetSchemas`: try the bulk `GET /schemas`; on a 404 fall back to
`GetSchemasIndividually`; other error statuses yield the structured or
generic error. -/
def GetSchemas (reg : SchemaRegistryState) (arrival : List String) :
    Except ClientError (List SchemaVersionedResponse) :=
  match reg.schemasResp with
  | .transportError m => .error (.transport ("get schemas failed: " ++ m))
  | .response status errorBody successBody =>
    if status = 404 then
      GetSchemasIndividually reg arrival
    else if isErrorStatus status then
      match errorBody with
      | some re => .error (.rest re)
      | none => .error (.statusCode "get schemas failed" status)
    else
      .ok (successBody.getD [])

/-! ### Concrete instances used by witnesses and counterexamples -/

/-- Selects the side of a deserialized record matching a payload type. -/
def sideOf (pt : PayloadType) (rec : DeserializedRecord) : RecordPayload :=
  match pt with
  | .key => rec.Key
  | .value => rec.Value

/-- A service with an empty codec chain. -/
def emptySvc : Service := { SerDes := [], deserializeConsumerOffset := fun _ => none }

/-- Serialize input requesting unknown encodings on both sides. -/
def cex1Input : SerializeInput :=
  { Topic := "", Key := { Encoding := "foo" }, Value := { Encoding := "bar" } }

/-- Serialize input for the C1 witness: unknown key encoding. -/
def wit1Input : SerializeInput :=
  { Topic := "", Key := { Encoding := "k1" }, Value := { Encoding := "v1" } }

/-- Witness chain for the C4 theorem: a failing codec followed by a
succeeding one. -/
def wit4Fail : Serde :=
  { name := "json"
    deserializePayload := fun _ _ => (none, some "invalid json")
    serializeObject := fun _ _ _ => .error "unsupported" }

/-- Witness chain for the C4 theorem: the codec that succeeds. -/
def wit4Ok : Serde :=
  { name := "xml"
    deserializePayload := fun _ _ => (some { Encoding := "xml" }, none)
    serializeObject := fun _ _ _ => .error "unsupported" }

/-- Witness service and record for the C4 theorem. -/
def wit4Svc : Service :=
  { SerDes := [wit4Fail, wit4Ok, wit4Fail], deserializeConsumerOffset := fun _ => none }

/-- Witness record for the C4 theorem. -/
def wit4Rec : KgoRecord := { Value := some [60, 47, 62] }

/-- Witness chain for the C5 theorem: every codec fails. -/
def wit5Svc : Service :=
  { SerDes := [{ name := "json"
                 deserializePayload := fun _ _ => (none, some "boom")
                 serializeObject := fun _ _ _ => .error "unsupported" }]
    deserializeConsumerOffset := fun _ => none }

/-- Witness record for the C5 theorem. -/
def wit5Rec : KgoRecord := { Value := some [7] }

/-- Witness record for the C8 theorem. -/
def wit8Rec : KgoRecord := { Topic := "orders", Value := some [1, 2, 3] }

/-- Whether an `Except` result is a success. -/
def exceptIsOk {e a : Type} : Except e a → Bool
  | .ok _ => true
  | .error _ => false

/-- Witness schema service for the Avro codec theorems: every id resolves. -/
def wit9Svc : AvroSchemaSvc := { getAvroSchemaByID := fun _ => .ok "schema" }

/-- Witness Avro decoder: every body decodes to null. -/
def wit9Unmarshal : String → List Nat → Except String DynamicValue :=
  fun _ _ => .ok .nullV

/-- Witness record for the C9 theorem: a two-byte value, shorter than a
frame. -/
def wit9Rec : KgoRecord := { Value := some [1, 2] }

/-- A well-formed Avro frame carrying schema id 7. -/
def cex3Rec : KgoRecord := { Value := some [0, 0, 0, 0, 7, 1] }

/-- A well-formed Avro frame carrying schema id 9. -/
def wit3Rec : KgoRecord := { Value := some [0, 0, 0, 0, 9, 2, 3] }

/-- Witness registry for the C6 theorem: the bulk endpoint is missing (404),
three subjects exist, and fetching the latest schema of subject B fails. -/
def wit6Reg : SchemaRegistryState :=
  { schemasResp := .response 404 none none
    subjectsResp := .response 200 none (some ["A", "B", "C"])
    schemaBySubjectResp := fun su =>
      if su = "B" then .response 500 (some ⟨50002, "store error"⟩) none
      else .response 200 none (some { Subject := su, SchemaID := 1, Version := 1
                                      Schema := "record", SchemaType := "AVRO" }) }

end Console

namespace Console

/-! ### Theorems -/

section DispatchTheorems

/-- If every codec before `serde` fails and `serde` succeeds, the chain loop
stops at `serde`: its payload is the outcome, the error is nil, and exactly
the codecs up to and including `serde` were invoked. -/
theorem runSerdes_first_success (record : KgoRecord) (pt : PayloadType) :
    ∀ (pre : List Serde) (serde : Serde) (rest : List Serde) (rp : RecordPayload)
      (rp0 : Option RecordPayload) (err0 : Option String),
      (∀ sd ∈ pre, (sd.deserializePayload record pt).2 ≠ none) →
      serde.deserializePayload record pt = (some rp, none) →
      (runSerdes record pt (pre ++ serde :: rest) rp0 err0).rp = some rp ∧
      (runSerdes record pt (pre ++ serde :: rest) rp0 err0).err = none ∧
      (runSerdes record pt (pre ++ serde :: rest) rp0 err0).invoked =
        pre.map Serde.name ++ [serde.name] := by
  intro pre
  induction pre with
  | nil =>
    intro serde rest rp rp0 err0 _ hs
    simp [runSerdes, hs]
  | cons sd pre ih =>
    intro serde rest rp rp0 err0 hpre hs
    have hsd : (sd.deserializePayload record pt).2 ≠ none := hpre sd (by simp)
    obtain ⟨e, he⟩ := Option.ne_none_iff_exists'.mp hsd
    have hrest : ∀ x ∈ pre, (x.deserializePayload record pt).2 ≠ none := by
      intro x hx; exact hpre x (by simp [hx])
    have := ih serde rest rp ((sd.deserializePayload record pt).1) (some e) hrest hs
    simp only [List.cons_append, runSerdes, he]
    exact ⟨this.1, this.2.1, by simp [this.2.2]⟩

/-- The encoding label of a non-empty payload's dispatch result, as a
function of the chain outcome: the winning codec's label, or the binary
classification when no codec succeeded or the winner's label is empty. -/
theorem deserializePayload_encoding_eq (s : Service) (record : KgoRecord) (pt : PayloadType)
    (opts : DeserializationOptions)
    (hne : payloadLen (payloadFromRecord record pt) ≠ 0) :
    (s.deserializePayload record pt opts).Encoding =
      match (runSerdes record pt s.SerDes none none).rp,
            (runSerdes record pt s.SerDes none none).err with
      | some rp, none => if rp.Encoding = "" then PayloadEncodingBinary else rp.Encoding
      | some _, some _ => PayloadEncodingBinary
      | none, _ => PayloadEncodingBinary := by
  simp only [Service.deserializePayload, if_neg hne]
  rcases hrp : (runSerdes record pt s.SerDes none none).rp with _ | rp <;>
    rcases herr : (runSerdes record pt s.SerDes none none).err with _ | e <;>
      simp [hrp, herr] <;> split_ifs <;> simp

/-- The troubleshooting entries of a non-empty payload's dispatch result, as
a function of the chain outcome: always attached when the binary fallback is
taken, otherwise governed by the caller's request (the winner's own field is
kept when troubleshooting was not requested). -/
theorem deserializePayload_troubleshooting_eq (s : Service) (record : KgoRecord)
    (pt : PayloadType) (opts : DeserializationOptions)
    (hne : payloadLen (payloadFromRecord record pt) ≠ 0) :
    (s.deserializePayload record pt opts).Troubleshooting =
      match (runSerdes record pt s.SerDes none none).rp,
            (runSerdes record pt s.SerDes none none).err with
      | some rp, none =>
        if rp.Encoding = "" then some (runSerdes record pt s.SerDes none none).reports
        else if opts.Troubleshoot then some (runSerdes record pt s.SerDes none none).reports
        else rp.Troubleshooting
      | some _, some _ => some (runSerdes record pt s.SerDes none none).reports
      | none, _ => some (runSerdes record pt s.SerDes none none).reports := by
  simp only [Service.deserializePayload, if_neg hne]
  rcases hrp : (runSerdes record pt s.SerDes none none).rp with _ | rp <;>
    rcases herr : (runSerdes record pt s.SerDes none none).err with _ | e <;>
      simp [hrp, herr] <;> split_ifs <;> simp_all

/-- The size-limit handling of a non-empty oversized payload: too-large flag
set, normalized payload dropped, size kept. -/
theorem deserializePayload_too_large (s : Service) (record : KgoRecord) (pt : PayloadType)
    (opts : DeserializationOptions)
    (hne : payloadLen (payloadFromRecord record pt) ≠ 0)
    (hsize : (payloadLen (payloadFromRecord record pt) : Int) > opts.MaxPayloadSize) :
    (s.deserializePayload record pt opts).IsPayloadTooLarge = true ∧
    (s.deserializePayload record pt opts).NormalizedPayload = none ∧
    (s.deserializePayload record pt opts).PayloadSizeBytes =
      payloadLen (payloadFromRecord record pt) := by
  simp only [Service.deserializePayload, if_neg hne]
  rcases hrp : (runSerdes record pt s.SerDes none none).rp with _ | rp <;>
    rcases herr : (runSerdes record pt s.SerDes none none).err with _ | e <;>
      simp [hrp, herr, hsize] <;> split_ifs <;> simp_all

/-- C4: for every non-empty payload the dispatch result carries exactly one
non-empty encoding label; and whenever some codec of the chain is the first
to succeed (all codecs before it fail) and reports, per its contract, a
payload with a non-empty label, the result's label is that codec's label and
the loop invoked exactly the codecs up to and including it — codecs after
the first success are never invoked. -/
theorem deserializePayload_first_success_wins (s : Service) (record : KgoRecord)
    (pt : PayloadType) (opts : DeserializationOptions)
    (hne : payloadLen (payloadFromRecord record pt) ≠ 0) :
    (s.deserializePayload record pt opts).Encoding ≠ "" ∧
    ∀ pre serde rest rp,
      s.SerDes = pre ++ serde :: rest →
      (∀ sd ∈ pre, (sd.deserializePayload record pt).2 ≠ none) →
      serde.deserializePayload record pt = (some rp, none) →
      rp.Encoding ≠ "" →
      (s.deserializePayload record pt opts).Encoding = rp.Encoding ∧
      (runSerdes record pt s.SerDes none none).invoked =
        pre.map Serde.name ++ [serde.name] := by
  constructor
  · rw [deserializePayload_encoding_eq s record pt opts hne]
    rcases (runSerdes record pt s.SerDes none none).rp with _ | rp <;>
      rcases (runSerdes record pt s.SerDes none none).err with _ | e <;>
        simp [PayloadEncodingBinary]
    all_goals try split_ifs
    all_goals first | decide | simp_all
  · intro pre serde rest rp hsplit hpre hs hrpne
    have hrun := runSerdes_first_success record pt pre serde rest rp none none hpre hs
    rw [hsplit]
    refine ⟨?_, hrun.2.2⟩
    rw [deserializePayload_encoding_eq s record pt opts hne, hsplit, hrun.1, hrun.2.1]
    simp [hrpne]

/-- Witness for the C4 theorem at a concrete chain: the second codec is the
first success, its label wins, and the third codec is never invoked. -/
theorem deserializePayload_first_success_wins_witness :
    (wit4Svc.deserializePayload wit4Rec .value {}).Encoding = "xml" ∧
    (runSerdes wit4Rec .value wit4Svc.SerDes none none).invoked = ["json", "xml"] := by
  have h := (deserializePayload_first_success_wins wit4Svc wit4Rec .value {}
    (by decide)).2 [wit4Fail] wit4Ok [wit4Fail] { Encoding := "xml" }
    rfl (by intro sd hsd; rw [List.mem_singleton] at hsd; subst hsd; simp [wit4Fail])
    rfl (by decide)
  simpa [wit4Fail, wit4Ok] using h

/-- C5: if the chain found no successful codec, or the winning codec's label
is empty, the result is normalized to the binary classification with the
accumulated troubleshooting entries attached regardless of the caller's
request; when a codec succeeds with a non-empty label, the accumulated
entries are attached exactly when requested (otherwise the winner's own —
per the codec contract absent — troubleshooting is kept). -/
theorem deserializePayload_binary_forces_troubleshooting (s : Service) (record : KgoRecord)
    (pt : PayloadType) (opts : DeserializationOptions)
    (hne : payloadLen (payloadFromRecord record pt) ≠ 0) :
    (((runSerdes record pt s.SerDes none none).err ≠ none ∨
      (runSerdes record pt s.SerDes none none).rp = none ∨
      (∃ rp, (runSerdes record pt s.SerDes none none).rp = some rp ∧ rp.Encoding = "")) →
      (s.deserializePayload record pt opts).Encoding = PayloadEncodingBinary ∧
      (s.deserializePayload record pt opts).Troubleshooting =
        some (runSerdes record pt s.SerDes none none).reports) ∧
    (∀ rp, (runSerdes record pt s.SerDes none none).rp = some rp →
      (runSerdes record pt s.SerDes none none).err = none →
      rp.Encoding ≠ "" →
      (s.deserializePayload record pt opts).Troubleshooting =
        if opts.Troubleshoot then some (runSerdes record pt s.SerDes none none).reports
        else rp.Troubleshooting) := by
  constructor
  · intro hforce
    rw [deserializePayload_encoding_eq s record pt opts hne,
      deserializePayload_troubleshooting_eq s record pt opts hne]
    rcases hrp : (runSerdes record pt s.SerDes none none).rp with _ | rp <;>
      rcases herr : (runSerdes record pt s.SerDes none none).err with _ | e <;> simp
    rcases hforce with h | h | ⟨rp', hrp', henc⟩
    · exact absurd herr (by simp [h])
    · exact absurd hrp (by simp [h])
    · rw [hrp] at hrp'
      obtain rfl : rp = rp' := by injection hrp'
      simp [henc]
  · intro rp hrp herr henc
    rw [deserializePayload_troubleshooting_eq s record pt opts hne, hrp, herr]
    simp [henc]

/-- Witness for the C5 theorem: with troubleshooting not requested and every
codec failing, the result is binary and the entries are attached anyway. -/
theorem deserializePayload_binary_forces_troubleshooting_witness :
    (wit5Svc.deserializePayload wit5Rec .value { Troubleshoot := false }).Encoding =
      PayloadEncodingBinary ∧
    (wit5Svc.deserializePayload wit5Rec .value { Troubleshoot := false }).Troubleshooting =
      some [⟨"json", "boom"⟩] := by
  have h := (deserializePayload_binary_forces_troubleshooting wit5Svc wit5Rec .value
    { Troubleshoot := false } (by decide)).1
    (Or.inl (by simp [runSerdes, wit5Svc]))
  simpa [runSerdes, wit5Svc] using h

/-- C8: for any record outside the internal consumer-offsets topic whose
key- or value-side payload is longer than the configured maximum (the
1 MB default standing in whenever the option is zero or negative), the
deserialization result for that side has the too-large flag set, no
normalized payload, a populated (non-empty) encoding label, and the size
field still reporting the payload's length. -/
theorem deserializeRecord_payload_too_large (s : Service) (record : KgoRecord)
    (opts : DeserializationOptions) (pt : PayloadType)
    (htopic : record.Topic ≠ "__consumer_offsets")
    (hsize : (payloadLen (payloadFromRecord record pt) : Int) >
      (if opts.MaxPayloadSize ≤ 0 then defaultMaxPayloadSize else opts.MaxPayloadSize)) :
    (sideOf pt (s.DeserializeRecord record opts)).IsPayloadTooLarge = true ∧
    (sideOf pt (s.DeserializeRecord record opts)).NormalizedPayload = none ∧
    (sideOf pt (s.DeserializeRecord record opts)).Encoding ≠ "" ∧
    (sideOf pt (s.DeserializeRecord record opts)).PayloadSizeBytes =
      payloadLen (payloadFromRecord record pt) := by
  have hmaxpos : (0 : Int) <
      (if opts.MaxPayloadSize ≤ 0 then defaultMaxPayloadSize else opts.MaxPayloadSize) := by
    split_ifs with h
    · simp [defaultMaxPayloadSize]
    · omega
  have hne : payloadLen (payloadFromRecord record pt) ≠ 0 := by
    intro h0
    rw [h0] at hsize
    omega
  have hside : sideOf pt (s.DeserializeRecord record opts) =
      s.deserializePayload record pt
        (if opts.MaxPayloadSize ≤ 0 then
          { opts with MaxPayloadSize := defaultMaxPayloadSize } else opts) := by
    simp only [Service.DeserializeRecord, if_neg htopic]
    split_ifs with h <;> cases pt <;> simp [sideOf, h]
  set opts' : DeserializationOptions :=
    (if opts.MaxPayloadSize ≤ 0 then
      { opts with MaxPayloadSize := defaultMaxPayloadSize } else opts) with hopts
  have hmax : opts'.MaxPayloadSize =
      (if opts.MaxPayloadSize ≤ 0 then defaultMaxPayloadSize else opts.MaxPayloadSize) := by
    rw [hopts]; split_ifs <;> rfl
  have hsize' : (payloadLen (payloadFromRecord record pt) : Int) > opts'.MaxPayloadSize := by
    rw [hmax]; exact hsize
  have hlarge := deserializePayload_too_large s record pt opts' hne hsize'
  have henc := (deserializePayload_first_success_wins s record pt opts' hne).1
  rw [hside]
  exact ⟨hlarge.1, hlarge.2.1, henc, hlarge.2.2⟩

/-- Witness for the C8 theorem: a 3-byte value with a configured maximum of
2 bytes is flagged too large, loses its normalized payload, and keeps a
non-empty label and its size. -/
theorem deserializeRecord_payload_too_large_witness :
    (sideOf .value (emptySvc.DeserializeRecord wit8Rec { MaxPayloadSize := 2 })).IsPayloadTooLarge
      = true ∧
    (sideOf .value (emptySvc.DeserializeRecord wit8Rec { MaxPayloadSize := 2 })).NormalizedPayload
      = none ∧
    (sideOf .value (emptySvc.DeserializeRecord wit8Rec { MaxPayloadSize := 2 })).Encoding ≠ "" ∧
    (sideOf .value (emptySvc.DeserializeRecord wit8Rec { MaxPayloadSize := 2 })).PayloadSizeBytes
      = 3 := by
  have h := deserializeRecord_payload_too_large emptySvc wit8Rec { MaxPayloadSize := 2 } .value
    (by decide) (by decide)
  simpa [wit8Rec, payloadFromRecord, payloadLen] using h

/-- C10: the `KeyEncoding` and `ValueEncoding` options are never read by the
deserialization path — two option values differing only in those fields
yield identical results from `DeserializeRecord` for every service and
record. -/
theorem deserializeRecord_ignores_forced_encodings (s : Service) (record : KgoRecord)
    (opts : DeserializationOptions) (k v : String) :
    s.DeserializeRecord record { opts with KeyEncoding := k, ValueEncoding := v } =
      s.DeserializeRecord record opts := by
  rcases opts with ⟨K, V, m, t, i⟩
  simp only [Service.DeserializeRecord]
  split_ifs with h <;> simp only [Service.deserializePayload]

end DispatchTheorems

section SerializeTheorems

/-- C1 (counterexample): with both requested encodings unknown to the chain,
`SerializeRecord` returns the key-side error — not the value-side one — and
no value-side partial result: the value side was never attempted, refuting
the claimed key/value independence. -/
theorem serializeRecord_key_failure_cex :
    (emptySvc.SerializeRecord cex1Input).1.Value = none ∧
    (emptySvc.SerializeRecord cex1Input).2 = some "invalid encoding for key: foo" :=
  ⟨rfl, rfl⟩

/-- C1 (amended): serialization is sequential, key first: any key-side
failure (invalid encoding or serializer error) returns immediately with the
key-side error and no value-side result; only when the key side succeeds is
the value side attempted, and then both partial results are returned with
the value-side error, if any. -/
theorem serializeRecord_key_then_value (s : Service) (input : SerializeInput) :
    (∀ e, sideErr (keySideOutcome s input) "key" input.Key.Encoding = some e →
      s.SerializeRecord input =
        ({ Key := some (sideResult (keySideOutcome s input)), Value := none }, some e)) ∧
    (sideErr (keySideOutcome s input) "key" input.Key.Encoding = none →
      s.SerializeRecord input =
        ({ Key := some (sideResult (keySideOutcome s input))
           Value := some (sideResult (valueSideOutcome s input)) },
         sideErr (valueSideOutcome s input) "value" input.Value.Encoding)) := by
  constructor
  · intro e he
    simp [Service.SerializeRecord, he]
  · intro he
    simp [Service.SerializeRecord, he]

/-- Witness for the C1 amended theorem: a concrete input with an unknown key
encoding returns early with the key-side error and an absent value side. -/
theorem serializeRecord_key_then_value_witness :
    emptySvc.SerializeRecord wit1Input =
      ({ Key := some { Encoding := "", Payload := none, Troubleshooting := [] }
         Value := none },
       some "invalid encoding for key: k1") := by
  have h := (serializeRecord_key_then_value emptySvc wit1Input).1
    "invalid encoding for key: k1" rfl
  exact h

end SerializeTheorems

section ChainOrderTheorems

/-- C2 (counterexample): the codec chain constructed by `NewService` is not
the order the spec lists — the spec places the registry-framed protobuf
codec before the plain one, the source registers them the other way
around. -/
theorem newServiceSerdeOrder_ne_spec : newServiceSerdeOrder ≠ specSerdeOrder := by
  decide

/-- C2 (amended): the constructed chain equals the spec's listed order
except that the protobuf codec without a schema registry precedes the
registry-framed (with-schema) protobuf codec — positions six and seven are
swapped. -/
theorem newServiceSerdeOrder_swapped_protobuf :
    newServiceSerdeOrder =
      specSerdeOrder.take 5 ++
        [SerdeKind.protobufSerde, SerdeKind.protobufSchemaSerde] ++
        specSerdeOrder.drop 7 := by
  decide

end ChainOrderTheorems

section AvroTheorems

/-- C9: any payload of at most five bytes, and any longer payload whose
first byte is not the 0x00 magic byte, is rejected by the Avro framed codec
with an error before any schema-resolver call is made (the instrumented
call trace stays empty). -/
theorem avroDeserialize_rejects_before_registry (svc : Option AvroSchemaSvc)
    (unmarshal : String → List Nat → Except String DynamicValue)
    (record : KgoRecord) (pt : PayloadType)
    (h : (payloadBytes record pt).length ≤ 5 ∨ (payloadBytes record pt).headI ≠ 0) :
    exceptIsOk (avroDeserializePayload svc unmarshal record pt).1 = false ∧
    (avroDeserializePayload svc unmarshal record pt).2 = [] := by
  rcases svc with _ | svc
  · exact ⟨rfl, rfl⟩
  · rcases h with h | h
    · simp [avroDeserializePayload, if_pos h, exceptIsOk]
    · by_cases hlen : (payloadBytes record pt).length ≤ 5
      · simp [avroDeserializePayload, if_pos hlen, exceptIsOk]
      · simp [avroDeserializePayload, if_neg hlen, if_pos h, exceptIsOk]

/-- Witness for the C9 theorem: a two-byte payload is rejected with the
short-frame error and the resolver call trace is empty. -/
theorem avroDeserialize_rejects_before_registry_witness :
    (avroDeserializePayload (some wit9Svc) wit9Unmarshal wit9Rec .value).2 = [] ∧
    (avroDeserializePayload (some wit9Svc) wit9Unmarshal wit9Rec .value).1 =
      Except.error "payload length is < 5" :=
  ⟨(avroDeserialize_rejects_before_registry (some wit9Svc) wit9Unmarshal wit9Rec .value
      (Or.inl (by decide))).2,
   rfl⟩

/-- C3 (counterexample): on a well-formed frame carrying schema id 7 whose
schema resolves and whose body decodes, the codec's success result carries
the parsed value and the Avro label but its schema-identifier field is left
unset — it does not contain 7. -/
theorem avroDeserialize_schema_id_cex :
    (avroDeserializePayload (some wit9Svc) wit9Unmarshal cex3Rec .value).1 =
      .ok { ParsedPayload := some DynamicValue.nullV, Encoding := payloadEncodingAvro } ∧
    ({ ParsedPayload := some DynamicValue.nullV, Encoding := payloadEncodingAvro } :
        RecordPayload).SchemaID ≠ some 7 :=
  ⟨rfl, by decide⟩

/-- C3 (amended): for every well-formed Avro-framed payload whose schema
identifier resolves and whose body decodes, the codec returns the structured
value and the Avro encoding label, but not the resolved schema identifier:
the schema-identifier field of the result is always absent. -/
theorem avroDeserialize_success_shape (svc : AvroSchemaSvc)
    (unmarshal : String → List Nat → Except String DynamicValue)
    (record : KgoRecord) (pt : PayloadType) (schema : String) (obj : DynamicValue)
    (hlen : 5 < (payloadBytes record pt).length)
    (hmagic : (payloadBytes record pt).headI = 0)
    (hresolve : svc.getAvroSchemaByID
      (bigEndianUint32 ((payloadBytes record pt).getD 1 0) ((payloadBytes record pt).getD 2 0)
        ((payloadBytes record pt).getD 3 0) ((payloadBytes record pt).getD 4 0)) = .ok schema)
    (hdecode : unmarshal schema ((payloadBytes record pt).drop 5) = .ok obj) :
    (avroDeserializePayload (some svc) unmarshal record pt).1 =
      .ok { ParsedPayload := some obj, Encoding := payloadEncodingAvro } ∧
    ∀ rp, (avroDeserializePayload (some svc) unmarshal record pt).1 = .ok rp →
      rp.SchemaID = none := by
  have hn5 : ¬(payloadBytes record pt).length ≤ 5 := by omega
  have hres : (avroDeserializePayload (some svc) unmarshal record pt).1 =
      .ok { ParsedPayload := some obj, Encoding := payloadEncodingAvro } := by
    simp only [avroDeserializePayload, if_neg hn5, if_neg (not_not_intro hmagic),
      hresolve, hdecode]
  refine ⟨hres, fun rp hrp => ?_⟩
  rw [hres] at hrp
  obtain rfl : ({ ParsedPayload := some obj, Encoding := payloadEncodingAvro } :
      RecordPayload) = rp := by injection hrp
  rfl

/-- Witness for the C3 amended theorem: a concrete frame carrying id 9
decodes to the structured value and the Avro label. -/
theorem avroDeserialize_success_shape_witness :
    (avroDeserializePayload (some wit9Svc) wit9Unmarshal wit3Rec .value).1 =
      .ok { ParsedPayload := some DynamicValue.nullV, Encoding := payloadEncodingAvro } :=
  (avroDeserialize_success_shape wit9Svc wit9Unmarshal wit3Rec .value "schema"
    DynamicValue.nullV (by decide) (by decide) rfl rfl).1

end AvroTheorems

section ClientTheorems

/-- If some subject in the arrival order has a failing latest-schema fetch,
the collection loop returns an error. -/
theorem collectSchemas_error_of_mem (reg : SchemaRegistryState) (su : String)
    (e : ClientError) :
    ∀ l : List String, su ∈ l →
      GetSchemaBySubject (reg.schemaBySubjectResp su) = .error e →
      exceptIsOk (collectSchemas reg l) = false := by
  intro l
  induction l with
  | nil => intro h; exact absurd h (List.not_mem_nil su)
  | cons a rest ih =>
    intro hmem hfetch
    rcases List.mem_cons.mp hmem with rfl | hmem
    · simp [collectSchemas, hfetch, exceptIsOk]
    · rcases ha : GetSchemaBySubject (reg.schemaBySubjectResp a) with e' | r
      · simp [collectSchemas, ha, exceptIsOk]
      · have := ih hmem hfetch
        rcases hrest : collectSchemas reg rest with e' | rs
        · simp [collectSchemas, ha, hrest, exceptIsOk]
        · rw [hrest] at this
          simp [exceptIsOk] at this

/-- C6: when the bulk schemas endpoint reports not-found, `GetSchemas` falls
back to enumerating subjects and fetching every subject's latest schema; if
any of those per-subject fetches fails, the whole operation fails — no
partial list is returned — whatever order the concurrent results arrive
in. -/
theorem getSchemas_fallback_fails_atomically (reg : SchemaRegistryState)
    (arrival subjects : List String) (eb : Option RestError)
    (sb : Option (List SchemaVersionedResponse))
    (h404 : reg.schemasResp = .response 404 eb sb)
    (hsub : GetSubjects reg.subjectsResp = .ok subjects)
    (hperm : arrival.Perm subjects)
    (hfail : ∃ su ∈ subjects, ∃ e,
      GetSchemaBySubject (reg.schemaBySubjectResp su) = .error e) :
    exceptIsOk (GetSchemas reg arrival) = false := by
  obtain ⟨su, hsu, e, hfetch⟩ := hfail
  have hsu' : su ∈ arrival := hperm.mem_iff.mpr hsu
  have hcollect := collectSchemas_error_of_mem reg su e arrival hsu' hfetch
  simp only [GetSchemas, h404, if_pos rfl, GetSchemasIndividually, hsub]
  exact hcollect

/-- Witness for the C6 theorem: the bulk endpoint 404s, subject B's fetch
fails, and the whole bulk listing fails with no partial result. -/
theorem getSchemas_fallback_fails_atomically_witness :
    exceptIsOk (GetSchemas wit6Reg ["A", "B", "C"]) = false :=
  getSchemas_fallback_fails_atomically wit6Reg ["A", "B", "C"] ["A", "B", "C"]
    none none rfl rfl (List.Perm.refl _)
    ⟨"B", by decide, ClientError.rest ⟨50002, "store error"⟩, rfl⟩

/-- C7: the claim fails on `GetSubjects` — unlike every other client call,
it performs no error-status check, so a registry error response (here a 500
with a structured error body) is reported as a successful, empty subject
list rather than as an error. -/
theorem getSubjects_error_status_yields_success :
    GetSubjects (.response 500 (some ⟨50001, "Internal server error"⟩) none) =
      .ok [] := rfl

end ClientTheorems

end Console
